import Mathlib

/-!
Verification of the Campaign Synthesis Orchestrator of the strategIQ-ai
repository, shallowly embedded from
`src/terraform/lambda-handlers/intent_parser/handler.py` and
`src/terraform/lambda-handlers/image_analysis/handler.py`.

Python dicts and JSON values are modelled by the `Json` inductive; Python
exceptions by `Except String` (error messages are modelling labels, not the
exact Python text); the external collaborators (Bedrock agent, Bedrock
model, the three sub-capability Lambdas, DynamoDB) by an `Env` record
supplying each call's outcome.  Sub-capability invocations, the DynamoDB
read and calls to the deterministic fallback builder are recorded in an
event trace so that ordering properties can be stated.
-/

set_option maxRecDepth 100000

namespace StrategIQ

/-- Model of Python/JSON values.  Python dicts are association lists in
insertion order with unique keys (as `json.loads` and all code paths here
produce). -/
inductive Json where
  | null
  | bool (b : Bool)
  | num (n : Int)
  | str (s : String)
  | arr (elems : List Json)
  | obj (fields : List (String × Json))

mutual

/-- Structural equality of `Json` values (Python `==` on JSON data). -/
def beqJson : Json → Json → Bool
  | .null, .null => true
  | .bool a, .bool b => a == b
  | .num a, .num b => a == b
  | .str a, .str b => a == b
  | .arr xs, .arr ys => beqJsonList xs ys
  | .obj xs, .obj ys => beqJsonObj xs ys
  | _, _ => false

/-- Elementwise equality of `Json` lists. -/
def beqJsonList : List Json → List Json → Bool
  | [], [] => true
  | x :: xs, y :: ys => beqJson x y && beqJsonList xs ys
  | _, _ => false

/-- Elementwise equality of `Json` field lists. -/
def beqJsonObj : List (String × Json) → List (String × Json) → Bool
  | [], [] => true
  | (k1, v1) :: xs, (k2, v2) :: ys => k1 == k2 && beqJson v1 v2 && beqJsonObj xs ys
  | _, _ => false

end

mutual

theorem beqJson_refl : ∀ a, beqJson a a = true
  | .null => rfl
  | .bool b => by simp [beqJson]
  | .num n => by simp [beqJson]
  | .str s => by simp [beqJson]
  | .arr xs => by simp only [beqJson]; exact beqJsonList_refl xs
  | .obj kvs => by simp only [beqJson]; exact beqJsonObj_refl kvs

theorem beqJsonList_refl : ∀ xs, beqJsonList xs xs = true
  | [] => rfl
  | x :: xs => by
      simp only [beqJsonList, Bool.and_eq_true]
      exact ⟨beqJson_refl x, beqJsonList_refl xs⟩

theorem beqJsonObj_refl : ∀ kvs, beqJsonObj kvs kvs = true
  | [] => rfl
  | (k, v) :: kvs => by
      simp only [beqJsonObj, Bool.and_eq_true, beq_self_eq_true, true_and]
      exact ⟨beqJson_refl v, beqJsonObj_refl kvs⟩

end

/-- First binding of a key in a Python dict (keys are unique, so this is
the dict lookup). -/
def lookupKey : List (String × Json) → String → Option Json
  | [], _ => none
  | (k', v) :: rest, k => if k' = k then some v else lookupKey rest k

/-- Python dict assignment `d[k] = v`: replaces the value in place if the
key exists (keeping its position, as Python dicts do) and appends
otherwise. -/
def setKey : List (String × Json) → String → Json → List (String × Json)
  | [], k, v => [(k, v)]
  | (k', v') :: rest, k, v =>
      if k' = k then (k', v) :: rest else (k', v') :: setKey rest k v

/-- Python truthiness of a value. -/
def Json.truthy : Json → Bool
  | .null => false
  | .bool b => b
  | .num n => n != 0
  | .str s => s ≠ ""
  | .arr xs => !xs.isEmpty
  | .obj kvs => !kvs.isEmpty

/-- Python `d.get(k, default)` on a dict: the stored value when the key is
present (even when that value is `None`), the default otherwise.  Raises
(`Except.error`) when the receiver is not a dict, exactly as `.get` on a
non-dict raises `AttributeError`. -/
def pyGetD : Json → String → Json → Except String Json
  | .obj kvs, k, d => .ok ((lookupKey kvs k).getD d)
  | _, _, _ => .error "AttributeError: get on non-dict"

/-- Python `d.get(k)` (default `None`). -/
def pyGet (j : Json) (k : String) : Except String Json :=
  pyGetD j k .null

/-- Total variant of `d.get(k, default)`, used only at sites where the
receiver is already established to be a dict (the non-dict case returns the
default and is unreachable at those sites). -/
def getFieldD (j : Json) (k : String) (d : Json) : Json :=
  match j with
  | .obj kvs => (lookupKey kvs k).getD d
  | _ => d

/-- Python `campaign[key]` for a string key: dict indexing.  On a non-dict
(or a missing key) it raises, as `str`/`list` indexing with a string key
raises `TypeError` (resp. `KeyError`). -/
def pyIndexKey : Json → String → Except String Json
  | .obj kvs, k =>
      match lookupKey kvs k with
      | some v => .ok v
      | none => .error "KeyError"
  | _, _ => .error "TypeError: indexing with a string key"

/-- Python slicing `x[:n]`: defined for lists and strings, raises
`TypeError: unsubscriptable` for every other value. -/
def pySlice : Json → Nat → Except String Json
  | .arr xs, n => .ok (.arr (xs.take n))
  | .str s, n => .ok (.str (String.mk (s.data.take n)))
  | _, _ => .error "TypeError: not subscriptable"

/-- Whether `needle` is a prefix of `hay`. -/
def listStartsWith : List Char → List Char → Bool
  | _, [] => true
  | [], _ :: _ => false
  | c :: cs, d :: ds => c = d && listStartsWith cs ds

/-- Whether `needle` occurs as a contiguous sublist of `hay`. -/
def listContainsSub (hay needle : List Char) : Bool :=
  if listStartsWith hay needle then true
  else
    match hay with
    | [] => false
    | _ :: rest => listContainsSub rest needle

/-- Whether the string `k` occurs as a substring of `s` (Python `k in s`). -/
def strContains (s k : String) : Bool :=
  listContainsSub s.data k.data

/-- Python `k in x` for the membership tests of the handler: key test on a
dict, element equality on a list, substring test on a str.  For values on
which Python `in` raises `TypeError` (numbers, booleans, `None`) the
result is `false`; at every call site of the handler such a raise is caught
by an enclosing `except` whose observable behaviour coincides with a
failed test, so the conflation is behaviour-preserving. -/
def pyContains : Json → String → Bool
  | .obj kvs, k => (lookupKey kvs k).isSome
  | .arr xs, k => xs.any (fun x => beqJson x (Json.str k))
  | .str s, k => strContains s k
  | _, _ => false

/-- Python `str()` of a value, as used in the handler's f-strings.  The
rendering of containers is abbreviated: no property proved here inspects
the printed form of a container. -/
def pyStr : Json → String
  | .null => "None"
  | .bool true => "True"
  | .bool false => "False"
  | .num n => toString n
  | .str s => s
  | .arr _ => "[...]"
  | .obj _ => "\x7b...\x7d"

/-- The seven required top-level keys of the campaign schema, as listed in
`extract_campaign_json`, `synthesize_with_bedrock` and
`is_valid_campaign`. -/
def requiredKeys : List String :=
  ["product", "content_ideas", "campaigns", "generated_assets",
   "related_youtube_videos", "platform_recommendations", "market_insights"]

/-- The key-completeness test `all(key in data for key in required_keys)`
used by the extractor and the synthesis step. -/
def hasAllKeys (j : Json) : Bool :=
  requiredKeys.all (fun k => pyContains j k)

/-- Modelled from the spec (section 3): a `CampaignResult` is valid iff all
seven top-level keys are present with the correct container types
(`product`, `generated_assets`, `platform_recommendations`,
`market_insights` objects; `content_ideas`, `campaigns`,
`related_youtube_videos` lists).  The handler itself never checks container
types; this definition exists to compare the spec's validity predicate with
what the code guarantees. -/
def specValidCampaign : Json → Bool
  | .obj kvs =>
      (match lookupKey kvs "product" with | some (.obj _) => true | _ => false) &&
      (match lookupKey kvs "content_ideas" with | some (.arr _) => true | _ => false) &&
      (match lookupKey kvs "campaigns" with | some (.arr _) => true | _ => false) &&
      (match lookupKey kvs "generated_assets" with | some (.obj _) => true | _ => false) &&
      (match lookupKey kvs "related_youtube_videos" with | some (.arr _) => true | _ => false) &&
      (match lookupKey kvs "platform_recommendations" with | some (.obj _) => true | _ => false) &&
      (match lookupKey kvs "market_insights" with | some (.obj _) => true | _ => false)
  | _ => false

/-! A model of `json.loads`

A fuel-indexed recursive-descent parser for the JSON fragment the handler
exchanges: `null`, booleans, integer numbers, strings with the usual
escapes, arrays and objects.  Python's `json.loads` additionally accepts
floating-point literals, which this model rejects; no input considered in
this development contains one.  Duplicate object keys keep the last value
in the first key's position, as Python dicts do. -/

def lbraceC : Char := Char.ofNat 123

def rbraceC : Char := Char.ofNat 125

def isWsC (c : Char) : Bool :=
  c = ' ' || c = '\n' || c = '\t' || c = '\r'

def skipWs : List Char → List Char
  | [] => []
  | c :: cs => if isWsC c then skipWs cs else c :: cs

def hexVal (c : Char) : Option Nat :=
  if '0' ≤ c ∧ c ≤ '9' then some (c.toNat - '0'.toNat)
  else if 'a' ≤ c ∧ c ≤ 'f' then some (c.toNat - 'a'.toNat + 10)
  else if 'A' ≤ c ∧ c ≤ 'F' then some (c.toNat - 'A'.toNat + 10)
  else none

/-- Parses the body of a JSON string literal after the opening quote,
returning the decoded string and the input after the closing quote.
Surrogate-pair combination is not modelled (no input here uses it). -/
def parseStrBody : List Char → List Char → Option (String × List Char)
  | [], _ => none
  | c :: cs, acc =>
    if c = '"' then some (String.mk acc.reverse, cs)
    else if c = '\\' then
      match cs with
      | '"' :: cs' => parseStrBody cs' ('"' :: acc)
      | '\\' :: cs' => parseStrBody cs' ('\\' :: acc)
      | '/' :: cs' => parseStrBody cs' ('/' :: acc)
      | 'n' :: cs' => parseStrBody cs' ('\n' :: acc)
      | 't' :: cs' => parseStrBody cs' ('\t' :: acc)
      | 'r' :: cs' => parseStrBody cs' ('\r' :: acc)
      | 'b' :: cs' => parseStrBody cs' ((Char.ofNat 8) :: acc)
      | 'f' :: cs' => parseStrBody cs' ((Char.ofNat 12) :: acc)
      | 'u' :: h1 :: h2 :: h3 :: h4 :: cs' =>
        match hexVal h1, hexVal h2, hexVal h3, hexVal h4 with
        | some a, some b, some c', some d =>
            parseStrBody cs' ((Char.ofNat (((a * 16 + b) * 16 + c') * 16 + d)) :: acc)
        | _, _, _, _ => none
      | _ => none
    else if c.toNat < 32 then none
    else parseStrBody cs (c :: acc)

def digitsPrefix : List Char → List Char × List Char
  | [] => ([], [])
  | c :: cs =>
    if c.isDigit then
      let (ds, rest) := digitsPrefix cs
      (c :: ds, rest)
    else ([], c :: cs)

def digitsToNat (ds : List Char) : Nat :=
  ds.foldl (fun acc c => acc * 10 + (c.toNat - '0'.toNat)) 0

/-- Parses a JSON integer literal (leading zeros rejected, as in Python).
Fails on a following `.`, `e` or `E`: floating-point numbers are outside
this model. -/
def parseNum (cs : List Char) : Option (Json × List Char) :=
  let (neg, cs') := match cs with
    | '-' :: rest => (true, rest)
    | _ => (false, cs)
  match digitsPrefix cs' with
  | ([], _) => none
  | (ds, rest) =>
    if ds.length > 1 ∧ ds.headD '0' = '0' then none
    else match rest with
      | '.' :: _ => none
      | 'e' :: _ => none
      | 'E' :: _ => none
      | _ =>
        let n : Int := Int.ofNat (digitsToNat ds)
        some (.num (if neg then -n else n), rest)

mutual

/-- Parses one JSON value (after skipping leading whitespace). -/
def parseVal : Nat → List Char → Option (Json × List Char)
  | 0, _ => none
  | fuel + 1, cs =>
    match skipWs cs with
    | [] => none
    | c :: rest =>
      if c = 'n' then
        match rest with
        | 'u' :: 'l' :: 'l' :: rest' => some (.null, rest')
        | _ => none
      else if c = 't' then
        match rest with
        | 'r' :: 'u' :: 'e' :: rest' => some (.bool true, rest')
        | _ => none
      else if c = 'f' then
        match rest with
        | 'a' :: 'l' :: 's' :: 'e' :: rest' => some (.bool false, rest')
        | _ => none
      else if c = '"' then
        match parseStrBody rest [] with
        | some (s, rest') => some (.str s, rest')
        | none => none
      else if c = '[' then
        match skipWs rest with
        | c' :: rest' =>
          if c' = ']' then some (.arr [], rest')
          else parseArrItems fuel (c' :: rest') []
        | [] => none
      else if c = lbraceC then
        match skipWs rest with
        | c' :: rest' =>
          if c' = rbraceC then some (.obj [], rest')
          else parseObjItems fuel (c' :: rest') []
        | [] => none
      else parseNum (c :: rest)

/-- Parses the remaining items of a non-empty JSON array. -/
def parseArrItems : Nat → List Char → List Json → Option (Json × List Char)
  | 0, _, _ => none
  | fuel + 1, cs, acc =>
    match parseVal fuel cs with
    | none => none
    | some (v, rest) =>
      match skipWs rest with
      | ',' :: rest' => parseArrItems fuel rest' (acc ++ [v])
      | c :: rest' => if c = ']' then some (.arr (acc ++ [v]), rest') else none
      | [] => none

/-- Parses the remaining entries of a non-empty JSON object. -/
def parseObjItems : Nat → List Char → List (String × Json) → Option (Json × List Char)
  | 0, _, _ => none
  | fuel + 1, cs, acc =>
    match skipWs cs with
    | c :: rest =>
      if c = '"' then
        match parseStrBody rest [] with
        | none => none
        | some (k, rest') =>
          match skipWs rest' with
          | ':' :: rest'' =>
            match parseVal fuel rest'' with
            | none => none
            | some (v, rest''') =>
              match skipWs rest''' with
              | ',' :: cs' => parseObjItems fuel cs' (setKey acc k v)
              | c' :: cs' =>
                  if c' = rbraceC then some (.obj (setKey acc k v), cs') else none
              | [] => none
          | _ => none
      else none
    | [] => none

end

/-- Model of Python `json.loads`: parse one value and require only
whitespace to remain. -/
def jsonLoads (text : String) : Option Json :=
  let cs := text.data
  match parseVal (2 * cs.length + 8) cs with
  | some (j, rest) => if (skipWs rest).isEmpty then some j else none
  | none => none

/-! Rendering (used to build concrete model inputs) -/

mutual

/-- Serializes a `Json` value; string contents are emitted verbatim (the
concrete values used in this file need no escaping). -/
def render : Json → String
  | .null => "null"
  | .bool true => "true"
  | .bool false => "false"
  | .num n => toString n
  | .str s => "\"" ++ s ++ "\""
  | .arr xs => "[" ++ renderList xs ++ "]"
  | .obj kvs => String.singleton lbraceC ++ renderObj kvs ++ String.singleton rbraceC

def renderList : List Json → String
  | [] => ""
  | [x] => render x
  | x :: y :: xs => render x ++ ", " ++ renderList (y :: xs)

def renderObj : List (String × Json) → String
  | [] => ""
  | [(k, v)] => "\"" ++ k ++ "\": " ++ render v
  | (k, v) :: e :: kvs => "\"" ++ k ++ "\": " ++ render v ++ ", " ++ renderObj (e :: kvs)

end

/-! The Structured-Output Extractor. -/

def lastIdxOf (cs : List Char) (c : Char) : Option Nat :=
  match cs.reverse.findIdx? (fun x => x = c) with
  | some k => some (cs.length - 1 - k)
  | none => none

/-- Semantics of `re.search(r'\x7b.*\x7d', text, re.DOTALL)` as used by
`extract_campaign_json`: the leftmost match of this greedy pattern runs
from the first opening brace of the text to the last closing brace of the
text, provided that closing brace comes later; there is no match
otherwise. -/
def greedySpan (cs : List Char) : Option (List Char) :=
  match cs.findIdx? (fun x => x = lbraceC), lastIdxOf cs rbraceC with
  | some i, some j => if i < j then some ((cs.drop i).take (j - i + 1)) else none
  | _, _ => none

/-- Second stage of `extract_campaign_json`: parse the regex match and
accept it only under the key-completeness test. -/
def extractViaSpan (cs : List Char) : Option Json :=
  match greedySpan cs with
  | none => none
  | some span =>
    match jsonLoads (String.mk span) with
    | some data => if hasAllKeys data then some data else none
    | none => none

/-- Embeds `extract_campaign_json` (intent_parser/handler.py, lines
628-659): try a direct full-text `json.loads` and accept when all seven
required keys are present; otherwise parse the greedy-regex brace span
under the same test; otherwise return `None`.  A `TypeError` raised by the
membership test inside either `try` block is caught by the enclosing
`except` and behaves exactly like a failed test (see `pyContains`). -/
def extract_campaign_json (text : String) : Option Json :=
  match jsonLoads text with
  | some data =>
    if hasAllKeys data then some data else extractViaSpan text.data
  | none => extractViaSpan text.data

/-- Modelled from the spec (section 4.2): collects, starting at an opening
brace, the span up to the brace that returns the nesting depth to zero. -/
def collectBalanced : List Char → Nat → List Char → Option (List Char)
  | [], _, _ => none
  | c :: cs, depth, acc =>
    if c = lbraceC then collectBalanced cs (depth + 1) (acc ++ [c])
    else if c = rbraceC then
      if depth = 1 then some (acc ++ [c])
      else collectBalanced cs (depth - 1) (acc ++ [c])
    else collectBalanced cs depth (acc ++ [c])

/-- Modelled from the spec (section 4.2): the first balanced-brace span of
the text, found by tracking brace-nesting depth. -/
def balancedSpan : List Char → Option (List Char)
  | [] => none
  | c :: rest =>
    if c = lbraceC then collectBalanced (c :: rest) 0 []
    else balancedSpan rest

/-- Modelled from the spec: the balanced-span counterpart of
`extractViaSpan`. -/
def extractViaBalanced (cs : List Char) : Option Json :=
  match balancedSpan cs with
  | none => none
  | some span =>
    match jsonLoads (String.mk span) with
    | some data => if hasAllKeys data then some data else none
    | none => none

/-- Modelled from the spec (section 4.2, steps 1-3): the extraction
algorithm the spec attributes to the Structured-Output Extractor — direct
parse, else the first balanced-brace span found by depth tracking, both
gated by the key-completeness test.  Defined only to compare with
`extract_campaign_json`. -/
def extractBalancedSpec (text : String) : Option Json :=
  match jsonLoads text with
  | some data =>
    if hasAllKeys data then some data else extractViaBalanced text.data
  | none => extractViaBalanced text.data

/-! The Deterministic Campaign Builder (`create_fallback_campaign`)

`create_fallback_campaign` (intent_parser/handler.py, lines 673-868) is a
pure function of the aggregated record and the campaign objectives.  It can
raise: `.get` on a non-dict argument raises `AttributeError`, and
`product_description[:200]` raises `TypeError` when the stored
`product_description` is neither a string nor a list (strings and lists
are the only sliceable `Json` values).  Python would raise at the first
offending site; the model raises on non-dict arguments up front, which is
observationally the same (both surface as an exception to the caller's
`except`). -/

/-- Label list construction of `create_fallback_campaign` (lines 683-693):
keep `label['name']` for dict labels, string labels verbatim; generic
labels when empty. -/
def fallbackLabelStrings (image_labels : Json) (product_category : Json) : List Json :=
  let collected : List Json :=
    match image_labels with
    | .arr xs =>
      (xs.take 10).foldl (fun acc label =>
        match label with
        | .obj kvs =>
          match lookupKey kvs "name" with
          | some v => acc ++ [v]
          | none => acc
        | .str s => acc ++ [.str s]
        | _ => acc) []
    | _ => []
  if collected.isEmpty then [product_category, .str "Quality", .str "Innovation"]
  else collected

/-- Video list construction of `create_fallback_campaign` (lines 696-723):
normalize up to five stored videos, else two placeholders. -/
def fallbackVideos (youtube_videos : Json) (product_name : Json) : List Json :=
  let formatted : List Json :=
    if youtube_videos.truthy then
      match youtube_videos with
      | .arr xs =>
        (xs.take 5).foldl (fun acc video =>
          match video with
          | .obj kvs =>
            acc ++ [Json.obj [
              ("title", (lookupKey kvs "title").getD
                (.str (pyStr product_name ++ " Related Video"))),
              ("channel", (lookupKey kvs "channel").getD (.str "Product Review Channel")),
              ("url", (lookupKey kvs "url").getD
                (.str "https://www.youtube.com/watch?v=dQw4w9WgXcQ")),
              ("views", (lookupKey kvs "views").getD (.num 10000))]]
          | _ => acc) []
      | _ => []
    else []
  if formatted.isEmpty then
    [Json.obj [
      ("title", .str (pyStr product_name ++ " Review & Features")),
      ("channel", .str "ProductReviews"),
      ("url", .str "https://www.youtube.com/watch?v=dQw4w9WgXcQ"),
      ("views", .num 15000)],
     Json.obj [
      ("title", .str ("Unboxing the New " ++ pyStr product_name)),
      ("channel", .str "TechUnboxing"),
      ("url", .str "https://www.youtube.com/watch?v=xvFZjo5PgG0"),
      ("views", .num 8500)]]
  else formatted

/-- The literal campaign object returned by `create_fallback_campaign`
(lines 725-868), parameterized by the values extracted from the record. -/
def fallbackCore (product_name descSlice product_category s3_key duration : Json)
    (label_strings formatted_videos : List Json) : Json :=
  let pn := pyStr product_name
  let pc := pyStr product_category
  .obj [
    ("product", .obj [
      ("description", .str (pn ++ " - " ++ pyStr descSlice)),
      ("image", .obj [
        ("public_url", .str ("https://product-images-bucket-v2.s3.amazonaws.com/" ++ pyStr s3_key)),
        ("s3_key", s3_key),
        ("labels", .arr label_strings)])]),
    ("content_ideas", .arr [
      .obj [
        ("platform", .str "Instagram"),
        ("topic", .str ("Showcase " ++ pn ++ " lifestyle integration")),
        ("engagement_score", .num 75),
        ("caption", .str ("Discover the innovation behind " ++ pn ++
          ". Experience quality that transforms your daily routine.")),
        ("hashtags", .arr [.str "#Innovation", .str "#Quality", .str ("#" ++ pc),
          .str "#Lifestyle", .str "#Premium"])],
      .obj [
        ("platform", .str "TikTok"),
        ("topic", .str (pn ++ " unboxing and first impressions")),
        ("engagement_score", .num 85),
        ("caption", .str ("Unboxing " ++ pn ++ " - you won’t believe what’s inside! 🔥")),
        ("hashtags", .arr [.str "#Unboxing", .str ("#" ++ pc), .str "#Review",
          .str "#MustHave"])],
      .obj [
        ("platform", .str "YouTube"),
        ("topic", .str ("Complete " ++ pn ++ " review and demonstration")),
        ("engagement_score", .num 80),
        ("caption", .str ("In-depth review of " ++ pn ++ ". Is it worth it? Watch to find out!")),
        ("hashtags", .arr [.str "#ProductReview", .str ("#" ++ pc), .str "#HonestReview",
          .str "#TechReview"])]]),
    ("campaigns", .arr [
      .obj [
        ("name", .str (pn ++ " Viral Marketing Campaign")),
        ("duration", duration),
        ("posts_per_week", .num 3),
        ("platforms", .arr [.str "Instagram", .str "TikTok", .str "YouTube"]),
        ("calendar", .obj [
          ("Week 1", .str ("Introduce the campaign with stunning visuals and tips for " ++
            pn ++ " usage")),
          ("Week 2", .str "Share user-generated content and customer testimonials"),
          ("Week 3", .str "Focus on product features and benefits with detailed content"),
          ("Week 4", .str "Wrap up with contests and calls-to-action for engagement")]),
        ("adaptations", .obj [
          ("Instagram", .str "Use high-quality images and short videos showcasing product features"),
          ("TikTok", .str "Create short, engaging videos with trending music and quick tips"),
          ("YouTube", .str "Post comprehensive reviews and tutorials for in-depth content")])],
      .obj [
        ("name", .str (pn ++ " Community Building Initiative")),
        ("duration", .str "45 days"),
        ("posts_per_week", .num 2),
        ("platforms", .arr [.str "Instagram", .str "Facebook", .str "LinkedIn"]),
        ("calendar", .obj [
          ("Week 1", .str "Launch community challenges and engagement activities"),
          ("Week 2", .str "Share customer stories and success cases"),
          ("Week 3", .str "Host Q&A sessions and expert interviews"),
          ("Week 4", .str "Run contests and giveaways to boost participation"),
          ("Week 5", .str "Analyze results and plan follow-up activities"),
          ("Week 6", .str "Celebrate community achievements and announce winners")]),
        ("adaptations", .obj [
          ("Instagram", .str "Focus on Stories, Reels, and community polls"),
          ("Facebook", .str "Create groups and events for community interaction"),
          ("LinkedIn", .str "Share professional insights and industry connections")])]]),
    ("generated_assets", .obj [
      ("image_prompts", .arr [
        .str ("A sleek " ++ pn ++
          " displayed in a modern, well-lit setting showcasing its key features and premium quality"),
        .str ("Action shot of " ++ pn ++ " in use, highlighting performance and user experience"),
        .str ("Lifestyle image showing " ++ pn ++
          " integrated into daily life with happy, satisfied users")]),
      ("video_scripts", .arr [
        .obj [
          ("type", .str "Short form video"),
          ("content", .str ("Quick tour of " ++ pn ++
            " features! From unboxing to first use, see why this is a game-changer. " ++
            "Perfect for social media highlights."))],
        .obj [
          ("type", .str "Long form video"),
          ("content", .str ("In-depth review of " ++ pn ++
            ": We break down every feature, test performance, and share real user experiences. " ++
            "Complete guide for potential buyers."))]]),
      ("email_templates", .arr [
        .obj [
          ("subject", .str ("Discover the Power of " ++ pn)),
          ("body", .str ("Hello [Name],\n\nWe’re excited to introduce you to " ++ pn ++
            ", the innovative solution you’ve been waiting for. Experience [key benefit] " ++
            "and transform your [use case].\n\nLearn more: [link]\n\nBest regards,\nThe " ++
            pn ++ " Team"))],
        .obj [
          ("subject", .str ("Your " ++ pn ++ " Success Story")),
          ("body", .str ("Hi [Name],\n\nThank you for choosing " ++ pn ++
            "! Here are some tips to get the most out of your purchase and join our " ++
            "community of satisfied users.\n\n[Personalized tips based on usage]\n\n" ++
            "Share your experience: [link]\n\nHappy exploring!\nThe " ++ pn ++ " Team"))]]),
      ("blog_outlines", .arr [
        .obj [
          ("title", .str ("Why " ++ pn ++ " is Revolutionizing " ++ pc)),
          ("points", .arr [
            .str ("Introduction to " ++ pn ++ " and its unique value proposition"),
            .str "Key features that set it apart from competitors",
            .str "Real-world applications and use cases",
            .str "Customer testimonials and success stories",
            .str "Future developments and roadmap"])],
        .obj [
          ("title", .str ("Getting Started with " ++ pn ++ ": A Complete Guide")),
          ("points", .arr [
            .str "Unboxing and initial setup process",
            .str "Essential features and how to use them",
            .str "Tips and tricks for optimal performance",
            .str "Common questions and troubleshooting",
            .str "Resources for further learning and support"])]])]),
    ("related_youtube_videos", .arr formatted_videos),
    ("platform_recommendations", .obj [
      ("primary_platforms", .arr [.str "Instagram", .str "TikTok", .str "YouTube"]),
      ("rationale", .str ("Selected platforms based on target audience demographics and " ++
        pc ++ " category performance. Instagram for visual storytelling, TikTok for " ++
        "viral potential, and YouTube for detailed product demonstrations."))]),
    ("market_insights", .obj [
      ("trending_content_types", .arr [
        .str "Unboxing videos",
        .str "User testimonials",
        .str "Behind-the-scenes content",
        .str "Tutorial and how-to content"]),
      ("cultural_considerations", .arr [
        .str "Emphasize quality and innovation for global markets",
        .str "Adapt messaging for regional preferences",
        .str "Use inclusive and authentic representation"]),
      ("audience_preferences", .arr [
        .str "Authentic, non-promotional content",
        .str "Influencer partnerships and UGC",
        .str "Short-form video content",
        .str "Interactive and educational content"])])]

/-- Embeds `create_fallback_campaign` (lines 673-868).  Raises on non-dict
arguments and on an unsliceable `product_description`; succeeds with the
literal campaign object otherwise. -/
def create_fallback_campaign (aggregated_record campaign_objectives : Json) :
    Except String Json :=
  match aggregated_record, campaign_objectives with
  | .obj rec, .obj objs =>
    let product_name := (lookupKey rec "product_name").getD (.str "Product")
    let product_description := (lookupKey rec "product_description").getD
      (.str (pyStr product_name ++ " - innovative product"))
    let image_labels := (lookupKey rec "image_labels").getD (.arr [])
    let product_category := (lookupKey rec "product_category").getD (.str "General")
    let s3_key := (lookupKey rec "s3_key").getD
      ((lookupKey rec "image_key").getD (.str "unknown"))
    let youtube_videos := (lookupKey rec "youtube_videos").getD (.arr [])
    let label_strings := fallbackLabelStrings image_labels product_category
    let formatted_videos := fallbackVideos youtube_videos product_name
    let duration := (lookupKey objs "campaign_duration").getD (.str "30 days")
    match pySlice product_description 200 with
    | .error e => .error e
    | .ok descSlice =>
      .ok (fallbackCore product_name descSlice product_category s3_key duration
        label_strings formatted_videos)
  | _, _ => .error "AttributeError: get on non-dict"

/-! The orchestrator (`lambda_handler` of the intent parser)

The external collaborators are modelled by an environment: the Tier-1
Bedrock agent call and the Tier-2 Bedrock model call each either raise or
produce a response text; each sub-capability Lambda invocation produces the
value `invoke_lambda_sync` returns for it (its normalized response
envelope); DynamoDB is a table of records keyed by `(product_id,
user_id)`.  The request's `product_info`, `s3_info` and `target_markets`
only feed prompts and payloads consumed by the environment, so only
`campaign_objectives` appears as a handler argument.  The `correlation_id`
(a fresh UUID echoed in responses) is not modelled. -/

structure Env where
  /-- Outcome of the Tier-1 `invoke_agent` call: the concatenated response
  stream, or a raised exception. -/
  tier1 : Except String String
  /-- Value returned by `invoke_lambda_sync` for the image-analysis Lambda. -/
  imageResult : Json
  /-- Value returned by `invoke_lambda_sync` for the data-enrichment Lambda. -/
  enrichResult : Json
  /-- Value returned by `invoke_lambda_sync` for the cultural-intelligence Lambda. -/
  culturalResult : Json
  /-- The DynamoDB table: items keyed by `(product_id, user_id)`. -/
  store : List ((Json × Json) × Json)
  /-- Outcome of the Tier-2 `invoke_model` call: the response text, or a
  raised exception. -/
  synthesis : Except String String

/-- Observable events of one orchestration run: sub-capability invocations,
the DynamoDB read with the key it used, and calls to
`create_fallback_campaign`. -/
inductive Ev where
  | image
  | enrichment
  | cultural
  | read (product_id user_id : Json)
  | builder

/-- DynamoDB `get_item`: the first item stored under the key. -/
def storeLookup : List ((Json × Json) × Json) → Json → Json → Option Json
  | [], _, _ => none
  | ((p, u), item) :: rest, pid, uid =>
    if beqJson p pid && beqJson u uid then some item else storeLookup rest pid uid

/-- A `{'success': False, 'error': e}` result dict. -/
def errResult (e : String) : Json :=
  .obj [("success", .bool false), ("error", .str e)]

/-- The per-key merge loop of `synthesize_with_bedrock` (lines 600-603):
`for key in required_keys: if key in campaign and campaign[key]:
fallback[key] = campaign[key]`.  Indexing a non-dict campaign raises. -/
def mergeKeys (campaign : Json) : Json → List String → Except String Json
  | fallback, [] => .ok fallback
  | fallback, k :: ks =>
    if pyContains campaign k then
      match pyIndexKey campaign k with
      | .error e => .error e
      | .ok v =>
        if v.truthy then
          match fallback with
          | .obj kvs => mergeKeys campaign (.obj (setKey kvs k v)) ks
          | other => mergeKeys campaign other ks
        else mergeKeys campaign fallback ks
    else mergeKeys campaign fallback ks

/-- The post-extraction reconciliation of `synthesize_with_bedrock` (lines
583-616): accept a complete campaign; merge an incomplete one over the
deterministic fallback; build the full fallback when extraction returned
nothing.  An exception anywhere is caught by the function's `except`, which
returns `{'success': False, 'error': ...}`. -/
def reconcileResult (campaign? : Option Json)
    (aggregated_record campaign_objectives : Json) : Json × List Ev :=
  match campaign? with
  | some campaign =>
    if campaign.truthy then
      if hasAllKeys campaign then
        (.obj [("success", .bool true), ("campaign", campaign)], [])
      else
        match create_fallback_campaign aggregated_record campaign_objectives with
        | .error e => (errResult e, [.builder])
        | .ok fallback =>
          match mergeKeys campaign fallback requiredKeys with
          | .error e => (errResult e, [.builder])
          | .ok merged =>
            (.obj [("success", .bool true), ("campaign", merged)], [.builder])
    else
      match create_fallback_campaign aggregated_record campaign_objectives with
      | .error e => (errResult e, [.builder])
      | .ok fallback =>
        (.obj [("success", .bool true), ("campaign", fallback)], [.builder])
  | none =>
    match create_fallback_campaign aggregated_record campaign_objectives with
    | .error e => (errResult e, [.builder])
    | .ok fallback =>
      (.obj [("success", .bool true), ("campaign", fallback)], [.builder])

/-- The prompt construction of `synthesize_with_bedrock` (lines 434-549):
its only observable effects are the exceptions of the `.get` calls on a
non-dict record and of the slices `image_labels[:5]`, `image_labels[:10]`
and `youtube_videos[:5]` on unsliceable values.  (`convert_decimals` is the
identity here: the `Json` model contains no `Decimal` values; the
`product_id` and the objectives appear in the prompt only through
`json.dumps`/f-strings, which do not raise on `Json` data.) -/
def synthPromptPrep (aggregated_record : Json) : Except String Unit := do
  let clean_record := aggregated_record
  let _product_name ← pyGetD clean_record "product_name" (.str "Unknown Product")
  let image_labels ← pyGetD clean_record "image_labels" (.arr [])
  let youtube_videos ← pyGetD clean_record "youtube_videos" (.arr [])
  let _market_insights ← pyGetD clean_record "market_insights" (.obj [])
  let image_key ← pyGetD clean_record "image_key" (.str "unknown")
  let _s3_key ← pyGetD clean_record "s3_key" image_key
  let _ ← pySlice image_labels 5
  let _ ← pySlice image_labels 10
  let _ ← pySlice youtube_videos 5
  pure ()

/-- Embeds `synthesize_with_bedrock` (lines 424-625): build the synthesis
prompt, invoke the model, extract a campaign from its text and reconcile
it; any raised exception yields `{'success': False, 'error': ...}`. -/
def synthesize_with_bedrock (env : Env)
    (aggregated_record campaign_objectives : Json) : Json × List Ev :=
  match synthPromptPrep aggregated_record with
  | .error e => (errResult e, [])
  | .ok _ =>
    match env.synthesis with
    | .error e => (errResult e, [])
    | .ok text =>
      reconcileResult (extract_campaign_json text) aggregated_record campaign_objectives

/-- Embeds `tier2_fail_safe_orchestration` (lines 242-353): image analysis
(fatal on failure), enrichment and cultural intelligence (log-and-continue),
then the DynamoDB read keyed by the collected `(product_id, user_id)`.
Any raised exception is caught and returned as a failure dict; the events
performed before the raise remain in the trace. -/
def tier2_fail_safe_orchestration (env : Env) : Json × List Ev :=
  let image_result := env.imageResult
  match pyGet image_result "success" with
  | .error e => (errResult e, [.image])
  | .ok s =>
    if !s.truthy then
      (errResult ("Image analysis failed: " ++
        pyStr (getFieldD image_result "error" (.str "Unknown"))), [.image])
    else
      let product_id := getFieldD image_result "product_id" .null
      let user_id := getFieldD image_result "user_id" (.str "anonymous")
      let enrichment_result := env.enrichResult
      match pyGet enrichment_result "success" with
      | .error e => (errResult e, [.image, .enrichment])
      | .ok _ =>
        let cultural_result := env.culturalResult
        match pyGet cultural_result "success" with
        | .error e => (errResult e, [.image, .enrichment, .cultural])
        | .ok _ =>
          let user_id := getFieldD cultural_result "user_id" user_id
          let aggregated_record := (storeLookup env.store product_id user_id).getD (.obj [])
          let evs := [.image, .enrichment, .cultural, .read product_id user_id]
          if !aggregated_record.truthy then
            (errResult ("Could not retrieve product record " ++ pyStr product_id ++
              " from DynamoDB"), evs)
          else
            (.obj [("success", .bool true), ("product_id", product_id),
              ("aggregated_record", aggregated_record)], evs)

/-- Embeds `try_bedrock_agent_with_tools` (lines 162-239): invoke the agent,
concatenate its stream and extract a campaign; any raise or extraction miss
is a failure. -/
def try_bedrock_agent_with_tools (env : Env) : Json :=
  match env.tier1 with
  | .error e => errResult e
  | .ok text =>
    match extract_campaign_json text with
    | some campaign =>
      if campaign.truthy then
        .obj [("success", .bool true), ("campaign", campaign)]
      else errResult "Agent did not return valid campaign JSON"
    | none => errResult "Agent did not return valid campaign JSON"

/-- An HTTP-shaped Lambda response; `body` is the object passed to
`json.dumps`. -/
structure Response where
  statusCode : Nat
  body : Json

/-- Embeds `lambda_handler` (intent_parser/handler.py, lines 13-159):
Tier 1, then Tier-2 orchestration, then model synthesis, then the
aggregated-data fallback; a `create_fallback_campaign` raise in the last
step propagates to the outermost `except` (statusCode 500).  The second
component is the run's event trace. -/
def lambda_handler (env : Env) (campaign_objectives : Json) : Response × List Ev :=
  let agent_result := try_bedrock_agent_with_tools env
  if (getFieldD agent_result "success" .null).truthy then
    (⟨200, .obj [("success", .bool true),
      ("generation_method", .str "bedrock_agent_with_tools"),
      ("campaign", getFieldD agent_result "campaign" .null)]⟩, [])
  else
    let (aggregated_data, evs) := tier2_fail_safe_orchestration env
    if !(getFieldD aggregated_data "success" .null).truthy then
      (⟨500, .obj [("success", .bool false),
        ("error", .str ("Failed to generate campaign data: " ++
          pyStr (getFieldD aggregated_data "error" (.str "Unknown"))))]⟩, evs)
    else
      let product_id := getFieldD aggregated_data "product_id" .null
      let aggregated_record := getFieldD aggregated_data "aggregated_record" (.obj [])
      let (synth, sevs) := synthesize_with_bedrock env aggregated_record campaign_objectives
      if (getFieldD synth "success" .null).truthy then
        (⟨200, .obj [("success", .bool true),
          ("generation_method", .str "fail_safe_orchestration_with_synthesis"),
          ("product_id", product_id),
          ("campaign", getFieldD synth "campaign" .null)]⟩, evs ++ sevs)
      else
        match create_fallback_campaign aggregated_record campaign_objectives with
        | .error e =>
          (⟨500, .obj [("success", .bool false),
            ("error", .str ("Intent parser failure: " ++ e))]⟩,
           evs ++ sevs ++ [.builder])
        | .ok fb =>
          (⟨200, .obj [("success", .bool true),
            ("generation_method", .str "fail_safe_aggregated_data_only"),
            ("product_id", product_id),
            ("campaign", fb),
            ("warning", .str ("Campaign generated from aggregated data only, " ++
              "Bedrock synthesis unavailable"))]⟩,
           evs ++ sevs ++ [.builder])

/-! Accessors and run predicates used by the statements. -/

/-- The `success` field of a response body. -/
def Response.successFlag (r : Response) : Option Json :=
  match r.body with
  | .obj kvs => lookupKey kvs "success"
  | _ => none

/-- The `generation_method` field of a response body. -/
def Response.genMethod (r : Response) : Option Json :=
  match r.body with
  | .obj kvs => lookupKey kvs "generation_method"
  | _ => none

/-- The `campaign` field of a response body (`null` when absent). -/
def Response.campaign (r : Response) : Json :=
  getFieldD r.body "campaign" .null

/-- Whether the response body carries a `warning` field. -/
def Response.hasWarning (r : Response) : Bool :=
  pyContains r.body "warning"

/-- Whether Tier 1 produced a campaign in this environment. -/
def tier1Succeeds (env : Env) : Bool :=
  (getFieldD (try_bedrock_agent_with_tools env) "success" .null).truthy

/-- Whether the Tier-2 image step fails: its `.get('success')` raises (the
result is not a dict) or is falsy. -/
def imageStepFails (env : Env) : Bool :=
  match pyGet env.imageResult "success" with
  | .error _ => true
  | .ok v => !v.truthy

/-! The image-analysis Lambda (`image_analysis/handler.py`) -/

/-- Python `str.split(sep)` for a one-character separator: splits the
character list at every occurrence of `sep`; the empty string yields one
empty part, as in Python. -/
def splitOnChar (cs : List Char) (sep : Char) : List (List Char) :=
  match cs with
  | [] => [[]]
  | c :: rest =>
    let r := splitOnChar rest sep
    if c = sep then [] :: r
    else
      match r with
      | h :: t => (c :: h) :: t
      | [] => [[c]]

/-- The `user_id` derivation of `create_product_record` (lines 214-216):
the second `'/'`-separated segment of the S3 key, `'anonymous'` when the
split yields fewer than two parts. -/
def deriveUserId (s3_key : String) : String :=
  match splitOnChar s3_key.data '/' with
  | _ :: second :: _ => String.mk second
  | _ => "anonymous"

/-- Embeds `create_product_record` (lines 197-247); the generated UUID,
timestamps and request id are parameters, and the float-to-Decimal
conversion of the labels is the identity in the `Json` model. -/
def create_product_record (product_info : Json) (s3_bucket s3_key : String)
    (labels : List Json) (total_labels high_conf : Int)
    (product_id timestamp request_id : String) : Json :=
  .obj [
    ("product_id", .str product_id),
    ("user_id", .str (deriveUserId s3_key)),
    ("product_name", getFieldD product_info "name" (.str "Unknown Product")),
    ("product_description", getFieldD product_info "description" (.str "")),
    ("product_category", getFieldD product_info "category" (.str "")),
    ("s3_bucket", .str s3_bucket),
    ("s3_key", .str s3_key),
    ("s3_url", .str ("s3://" ++ s3_bucket ++ "/" ++ s3_key)),
    ("image_labels", .arr labels),
    ("total_labels_detected", .num total_labels),
    ("high_confidence_labels_count", .num high_conf),
    ("created_at", .str timestamp),
    ("updated_at", .str timestamp),
    ("lambda_request_id", .str request_id),
    ("analysis_status", .str "image_analyzed")]

/-- Embeds the `response_data` a successful `handle_image_analysis` returns
to the intent parser (lines 129-141): note it carries no `user_id`. -/
def image_analysis_response (product_id product_name : String)
    (labels : List Json) (timestamp : String) : Json :=
  .obj [
    ("success", .bool true),
    ("product_id", .str product_id),
    ("product_name", .str product_name),
    ("detected_labels", .arr (labels.take 10)),
    ("analysis_status", .str "image_analyzed"),
    ("timestamp", .str timestamp)]

/-! Helper predicates. -/

/-- Whether Python slicing `v[:n]` is defined on the value. -/
def sliceable : Json → Bool
  | .str _ => true
  | .arr _ => true
  | _ => false

/-- The precondition under which `create_fallback_campaign` cannot raise on
a dict record: the stored `product_description`, when present, is
sliceable. -/
def recordBuilderSafe : Json → Bool
  | .obj kvs =>
    match lookupKey kvs "product_description" with
    | some v => sliceable v
    | none => true
  | _ => false

/-! Helper lemmas. -/

theorem extractViaSpan_complete (cs : List Char) (j : Json)
    (h : extractViaSpan cs = some j) : hasAllKeys j = true := by
  unfold extractViaSpan at h
  cases hs : greedySpan cs <;> rw [hs] at h <;> dsimp only at h
  · exact absurd h (by simp)
  · rename_i span
    cases hl : jsonLoads (String.mk span) <;> rw [hl] at h <;> dsimp only at h
    · exact absurd h (by simp)
    · rename_i d
      by_cases hk : hasAllKeys d = true
      · rw [if_pos hk] at h
        cases h
        exact hk
      · rw [if_neg hk] at h
        exact absurd h (by simp)

/-- Schema gate of the extractor: whatever `extract_campaign_json` returns
passed the key-completeness test; in particular a candidate missing any
required key is never returned. -/
theorem extract_only_complete (text : String) (j : Json)
    (h : extract_campaign_json text = some j) : hasAllKeys j = true := by
  unfold extract_campaign_json at h
  cases hl : jsonLoads text <;> rw [hl] at h <;> dsimp only at h
  · exact extractViaSpan_complete _ _ h
  · rename_i d
    by_cases hk : hasAllKeys d = true
    · rw [if_pos hk] at h
      cases h
      exact hk
    · rw [if_neg hk] at h
      exact extractViaSpan_complete _ _ h

theorem lookupKey_setKey_isSome (kvs : List (String × Json)) (k k' : String) (v : Json)
    (h : (lookupKey kvs k').isSome = true) :
    (lookupKey (setKey kvs k v) k').isSome = true := by
  induction kvs with
  | nil => simp [lookupKey] at h
  | cons e rest ih =>
    obtain ⟨k1, v1⟩ := e
    by_cases hk : k1 = k
    · rw [hk]
      simp only [setKey, if_pos rfl]
      by_cases h2 : k = k'
      · simp [lookupKey, h2]
      · rw [hk] at h
        simp only [lookupKey, if_neg h2] at h ⊢
        exact h
    · simp only [setKey, if_neg hk]
      by_cases h2 : k1 = k'
      · simp [lookupKey, h2]
      · simp only [lookupKey, if_neg h2] at h ⊢
        exact ih h

theorem hasAllKeys_setKey (kvs : List (String × Json)) (k : String) (v : Json)
    (h : hasAllKeys (.obj kvs) = true) : hasAllKeys (.obj (setKey kvs k v)) = true := by
  simp only [hasAllKeys, pyContains, List.all_eq_true] at h ⊢
  intro x hx
  exact lookupKey_setKey_isSome _ _ _ _ (h x hx)

theorem mergeKeys_preserves (c : Json) (ks : List String) (fb m : Json)
    (h : mergeKeys c fb ks = .ok m) (hfb : hasAllKeys fb = true) :
    hasAllKeys m = true := by
  induction ks generalizing fb with
  | nil =>
    unfold mergeKeys at h
    cases h
    exact hfb
  | cons k ks ih =>
    unfold mergeKeys at h
    by_cases hc : pyContains c k = true
    · rw [if_pos hc] at h
      cases hi : pyIndexKey c k <;> rw [hi] at h <;> dsimp only at h
      · exact absurd h (by simp)
      · rename_i v
        by_cases ht : v.truthy = true
        · rw [if_pos ht] at h
          cases fb with
          | obj kvs => exact ih _ h (hasAllKeys_setKey _ _ _ hfb)
          | null => exact ih _ h hfb
          | bool b => exact ih _ h hfb
          | num n => exact ih _ h hfb
          | str s => exact ih _ h hfb
          | arr xs => exact ih _ h hfb
        · rw [if_neg ht] at h
          exact ih _ h hfb
    · rw [if_neg hc] at h
      exact ih _ h hfb

theorem fallbackCore_complete (a b c d e : Json) (ls vs : List Json) :
    hasAllKeys (fallbackCore a b c d e ls vs) = true := rfl

theorem fallback_ok_complete (r o c : Json)
    (h : create_fallback_campaign r o = .ok c) : hasAllKeys c = true := by
  unfold create_fallback_campaign at h
  split at h
  · dsimp only at h
    split at h
    · exact absurd h (by simp)
    · cases h
      exact fallbackCore_complete _ _ _ _ _ _ _
  · exact absurd h (by simp)

theorem fallback_total (rec objs : List (String × Json))
    (h : recordBuilderSafe (.obj rec) = true) :
    ∃ c, create_fallback_campaign (.obj rec) (.obj objs) = .ok c := by
  unfold create_fallback_campaign
  dsimp only
  cases hd : lookupKey rec "product_description" with
  | none => exact ⟨_, rfl⟩
  | some v =>
    simp only [recordBuilderSafe, hd] at h
    cases v with
    | str s => exact ⟨_, rfl⟩
    | arr xs => exact ⟨_, rfl⟩
    | null => simp [sliceable] at h
    | bool b => simp [sliceable] at h
    | num n => simp [sliceable] at h
    | obj kvs => simp [sliceable] at h

theorem reconcile_success_complete (c? : Option Json) (r o res : Json) (evs : List Ev)
    (h : reconcileResult c? r o = (res, evs))
    (hs : (getFieldD res "success" .null).truthy = true) :
    hasAllKeys (getFieldD res "campaign" .null) = true := by
  unfold reconcileResult at h
  cases c? with
  | none =>
    cases hb : create_fallback_campaign r o <;> rw [hb] at h <;> dsimp only at h
    · cases h
      simp [errResult, getFieldD, lookupKey, Json.truthy] at hs
    · cases h
      rename_i fb
      simpa [getFieldD, lookupKey] using fallback_ok_complete r o fb hb
  | some campaign =>
    dsimp only at h
    by_cases ht : campaign.truthy = true
    · rw [if_pos ht] at h
      by_cases hk : hasAllKeys campaign = true
      · rw [if_pos hk] at h
        cases h
        simpa [getFieldD, lookupKey] using hk
      · rw [if_neg hk] at h
        cases hb : create_fallback_campaign r o <;> rw [hb] at h <;> dsimp only at h
        · cases h
          simp [errResult, getFieldD, lookupKey, Json.truthy] at hs
        · rename_i fb
          cases hm : mergeKeys campaign fb requiredKeys <;> rw [hm] at h <;> dsimp only at h
          · cases h
            simp [errResult, getFieldD, lookupKey, Json.truthy] at hs
          · cases h
            rename_i m
            simpa [getFieldD, lookupKey] using
              mergeKeys_preserves campaign requiredKeys fb m hm (fallback_ok_complete r o fb hb)
    · rw [if_neg ht] at h
      cases hb : create_fallback_campaign r o <;> rw [hb] at h <;> dsimp only at h
      · cases h
        simp [errResult, getFieldD, lookupKey, Json.truthy] at hs
      · cases h
        rename_i fb
        simpa [getFieldD, lookupKey] using fallback_ok_complete r o fb hb

theorem synth_success_complete (env : Env) (r o res : Json) (evs : List Ev)
    (h : synthesize_with_bedrock env r o = (res, evs))
    (hs : (getFieldD res "success" .null).truthy = true) :
    hasAllKeys (getFieldD res "campaign" .null) = true := by
  unfold synthesize_with_bedrock at h
  cases hp : synthPromptPrep r <;> rw [hp] at h <;> dsimp only at h
  · cases h
    simp [errResult, getFieldD, lookupKey, Json.truthy] at hs
  · cases ht : env.synthesis <;> rw [ht] at h <;> dsimp only at h
    · cases h
      simp [errResult, getFieldD, lookupKey, Json.truthy] at hs
    · exact reconcile_success_complete _ _ _ _ _ h hs

/-- The Tier-1 attempt either succeeds with an extracted campaign or fails
with an error dict. -/
theorem tier1_result_cases (env : Env) :
    (∃ text campaign, env.tier1 = .ok text ∧ extract_campaign_json text = some campaign ∧
      campaign.truthy = true ∧
      try_bedrock_agent_with_tools env =
        .obj [("success", .bool true), ("campaign", campaign)]) ∨
    (∃ e, try_bedrock_agent_with_tools env = errResult e) := by
  unfold try_bedrock_agent_with_tools
  cases ht : env.tier1 with
  | error e => right; exact ⟨e, rfl⟩
  | ok text =>
    dsimp only
    cases he : extract_campaign_json text with
    | none => right; exact ⟨_, rfl⟩
    | some campaign =>
      by_cases htr : campaign.truthy = true
      · left
        refine ⟨text, campaign, rfl, he, htr, ?_⟩
        dsimp only
        rw [if_pos htr]
      · right
        refine ⟨"Agent did not return valid campaign JSON", ?_⟩
        dsimp only
        rw [if_neg htr]

theorem tier1_success_complete (env : Env)
    (h : (getFieldD (try_bedrock_agent_with_tools env) "success" .null).truthy = true) :
    hasAllKeys (getFieldD (try_bedrock_agent_with_tools env) "campaign" .null) = true := by
  rcases tier1_result_cases env with ⟨text, campaign, ht, he, htr, heq⟩ | ⟨e, heq⟩
  · rw [heq]
    simpa [getFieldD, lookupKey] using extract_only_complete text campaign he
  · rw [heq] at h
    simp [errResult, getFieldD, lookupKey, Json.truthy] at h

/-- Total shape of every handler run: a 200 response whose campaign passes
the key-completeness test, or a 500 failure response. -/
theorem lambda_handler_shape (env : Env) (co : Json) :
    ((lambda_handler env co).1.statusCode = 200 ∧
     (lambda_handler env co).1.successFlag = some (.bool true) ∧
     hasAllKeys ((lambda_handler env co).1.campaign) = true) ∨
    ((lambda_handler env co).1.statusCode = 500 ∧
     (lambda_handler env co).1.successFlag = some (.bool false)) := by
  unfold lambda_handler
  by_cases h1 : (getFieldD (try_bedrock_agent_with_tools env) "success" Json.null).truthy = true
  · rw [if_pos h1]
    left
    exact ⟨rfl, rfl, tier1_success_complete env h1⟩
  · rw [if_neg h1]
    cases ht2 : tier2_fail_safe_orchestration env with
    | mk agg evs =>
      dsimp only
      cases hx : (getFieldD agg "success" Json.null).truthy with
      | false =>
        right
        exact ⟨rfl, rfl⟩
      | true =>
        cases hs : synthesize_with_bedrock env (getFieldD agg "aggregated_record" (.obj [])) co with
        | mk synth sevs =>
          dsimp only
          cases hy : (getFieldD synth "success" Json.null).truthy with
          | true =>
            left
            exact ⟨rfl, rfl, synth_success_complete env _ co synth sevs hs hy⟩
          | false =>
            cases hb : create_fallback_campaign (getFieldD agg "aggregated_record" (.obj [])) co with
            | error e =>
              right
              exact ⟨rfl, rfl⟩
            | ok fb =>
              left
              exact ⟨rfl, rfl, fallback_ok_complete _ co fb hb⟩

theorem fallback_ok_obj (r o c : Json)
    (h : create_fallback_campaign r o = .ok c) : ∃ fkvs, c = Json.obj fkvs := by
  unfold create_fallback_campaign at h
  split at h
  · dsimp only at h
    split at h
    · exact absurd h (by simp)
    · cases h
      exact ⟨_, rfl⟩
  · exact absurd h (by simp)

theorem recordBuilderSafe_obj (j : Json) (h : recordBuilderSafe j = true) :
    ∃ kvs, j = Json.obj kvs := by
  cases j with
  | obj kvs => exact ⟨kvs, rfl⟩
  | null => simp [recordBuilderSafe] at h
  | bool b => simp [recordBuilderSafe] at h
  | num n => simp [recordBuilderSafe] at h
  | str s => simp [recordBuilderSafe] at h
  | arr xs => simp [recordBuilderSafe] at h

/-- If the image step fails, Tier 2 stops immediately: the trace holds only
the image invocation and the result is a failure dict. -/
theorem tier2_image_fail (env : Env) (h : imageStepFails env = true) :
    ∃ e, tier2_fail_safe_orchestration env = (errResult e, [Ev.image]) := by
  unfold imageStepFails at h
  unfold tier2_fail_safe_orchestration
  dsimp only
  cases hg : pyGet env.imageResult "success" with
  | error e =>
    exact ⟨e, rfl⟩
  | ok s =>
    rw [hg] at h
    dsimp only at h ⊢
    rw [h]
    exact ⟨_, rfl⟩

/-! Claim C1. -/

/-- A response whose body parses as a campaign with all seven keys present
but every container type wrong. -/
def typedWrongCampaign : Json := .obj [
  ("product", .num 1), ("content_ideas", .num 2), ("campaigns", .num 3),
  ("generated_assets", .num 4), ("related_youtube_videos", .num 5),
  ("platform_recommendations", .num 6), ("market_insights", .num 7)]

/-- Environment in which the Tier-1 agent call raises and the image
analysis Lambda reports failure. -/
def envC1fail : Env :=
  ⟨.error "agent unavailable",
   .obj [("success", .bool false), ("error", .str "no image")],
   .null, .null, [], .error "model down"⟩

/-- Environment in which the Tier-1 agent returns exactly the mis-typed
campaign text. -/
def envC1typed : Env :=
  ⟨.ok (render typedWrongCampaign), .null, .null, .null, [], .error "model down"⟩

/-- C1: counterexample.  The claim is false on two counts: (i) when Tier 1
fails and the image step fails, `lambda_handler` returns an overall failure
(statusCode 500, success false) to its caller; (ii) a Tier-1 response whose
JSON has all seven keys with wrong container types is returned as the
campaign of a success outcome, violating the container-type part of the
validity predicate. -/
theorem C1_counterexample :
    ((lambda_handler envC1fail (.obj [])).1.statusCode = 500 ∧
     (lambda_handler envC1fail (.obj [])).1.successFlag = some (.bool false)) ∧
    ((lambda_handler envC1typed (.obj [])).1.statusCode = 200 ∧
     (lambda_handler envC1typed (.obj [])).1.successFlag = some (.bool true) ∧
     (lambda_handler envC1typed (.obj [])).1.campaign = typedWrongCampaign ∧
     specValidCampaign typedWrongCampaign = false) :=
  ⟨⟨rfl, rfl⟩, rfl, rfl, rfl, rfl⟩

/-- C1: amended.  Every run terminates with either a 200 success response
whose campaign passes the code's key-completeness test (container types are
not checked) or a 500 failure response; and whenever Tier 1 fails and the
Tier-2 orchestration fails, the handler reports the failure to its
caller. -/
theorem C1_amended_total (env : Env) (co : Json) :
    (((lambda_handler env co).1.statusCode = 200 ∧
      (lambda_handler env co).1.successFlag = some (.bool true) ∧
      hasAllKeys ((lambda_handler env co).1.campaign) = true) ∨
     ((lambda_handler env co).1.statusCode = 500 ∧
      (lambda_handler env co).1.successFlag = some (.bool false))) ∧
    (tier1Succeeds env = false →
     (getFieldD (tier2_fail_safe_orchestration env).1 "success" Json.null).truthy = false →
     (lambda_handler env co).1.statusCode = 500 ∧
     (lambda_handler env co).1.successFlag = some (.bool false)) := by
  refine ⟨lambda_handler_shape env co, fun h1 h2 => ?_⟩
  unfold tier1Succeeds at h1
  unfold lambda_handler
  rw [if_neg (by simp [h1])]
  cases ht2 : tier2_fail_safe_orchestration env with
  | mk agg evs =>
    rw [ht2] at h2
    dsimp only at h2 ⊢
    rw [h2]
    exact ⟨rfl, rfl⟩

/-- C1: witness for the amended theorem at a concrete failing run. -/
theorem C1_witness :
    tier1Succeeds envC1fail = false ∧
    (getFieldD (tier2_fail_safe_orchestration envC1fail).1 "success" Json.null).truthy = false ∧
    ((lambda_handler envC1fail (.obj [])).1.statusCode = 500 ∧
     (lambda_handler envC1fail (.obj [])).1.successFlag = some (.bool false)) :=
  ⟨rfl, rfl, (C1_amended_total envC1fail (.obj [])).2 rfl rfl⟩

/-! Claim C2. -/

/-- Aggregated record for the C2 run. -/
def recC2 : Json := .obj [("product_name", .str "EcoBottle")]

/-- Environment: Tier 1 raises; all three sub-capabilities report success;
the record resolves; the synthesis model returns prose with no JSON at
all. -/
def envC2 : Env :=
  ⟨.error "agent down",
   .obj [("success", .bool true), ("product_id", .str "p2"), ("user_id", .str "u2")],
   .obj [("success", .bool true)], .obj [("success", .bool true)],
   [((.str "p2", .str "u2"), recC2)],
   .ok "I cannot produce the requested JSON."⟩

/-- C2: counterexample.  In this Tier-2 run the synthesis extraction finds
nothing, so every top-level key of the returned campaign comes from the
Deterministic Campaign Builder — yet the method is
`fail_safe_orchestration_with_synthesis` and no warning is attached,
refuting both directions of the claimed equivalence. -/
theorem C2_counterexample :
    extract_campaign_json "I cannot produce the requested JSON." = none ∧
    create_fallback_campaign recC2 (.obj []) =
      .ok ((lambda_handler envC2 (.obj [])).1.campaign) ∧
    (lambda_handler envC2 (.obj [])).1.genMethod =
      some (.str "fail_safe_orchestration_with_synthesis") ∧
    (lambda_handler envC2 (.obj [])).1.hasWarning = false :=
  ⟨rfl, rfl, rfl, rfl⟩

/-- C2: amended.  In a Tier-2 run, the method is
`fail_safe_orchestration_with_synthesis` (with no warning) exactly when
`synthesize_with_bedrock` reports success — which includes runs whose
campaign was partly or wholly built by the Deterministic Builder — and
`fail_safe_aggregated_data_only` (with a warning, and with the campaign
equal to the Builder's output) exactly when `synthesize_with_bedrock`
fails, that is, when an exception was raised during synthesis. -/
theorem C2_amended (env : Env) (co : Json)
    (h1 : tier1Succeeds env = false)
    (h2 : (getFieldD (tier2_fail_safe_orchestration env).1 "success" Json.null).truthy = true) :
    ((getFieldD (synthesize_with_bedrock env
        (getFieldD (tier2_fail_safe_orchestration env).1 "aggregated_record" (.obj [])) co).1
        "success" Json.null).truthy = true →
      (lambda_handler env co).1.genMethod =
        some (.str "fail_safe_orchestration_with_synthesis") ∧
      (lambda_handler env co).1.hasWarning = false) ∧
    ((getFieldD (synthesize_with_bedrock env
        (getFieldD (tier2_fail_safe_orchestration env).1 "aggregated_record" (.obj [])) co).1
        "success" Json.null).truthy = false →
      ∀ fb, create_fallback_campaign
          (getFieldD (tier2_fail_safe_orchestration env).1 "aggregated_record" (.obj [])) co
            = .ok fb →
        (lambda_handler env co).1.genMethod = some (.str "fail_safe_aggregated_data_only") ∧
        (lambda_handler env co).1.hasWarning = true ∧
        (lambda_handler env co).1.campaign = fb) := by
  unfold tier1Succeeds at h1
  unfold lambda_handler
  rw [if_neg (by simp [h1])]
  cases ht2 : tier2_fail_safe_orchestration env with
  | mk agg evs =>
    rw [ht2] at h2
    dsimp only at h2 ⊢
    rw [h2]
    cases hs : synthesize_with_bedrock env (getFieldD agg "aggregated_record" (.obj [])) co with
    | mk synth sevs =>
      dsimp only
      constructor
      · intro hy
        rw [hy]
        exact ⟨rfl, rfl⟩
      · intro hy fb hfb
        rw [hy, hfb]
        exact ⟨rfl, rfl, rfl⟩

/-- C2: witness for the amended theorem, at the concrete full-fallback
run. -/
theorem C2_witness :
    tier1Succeeds envC2 = false ∧
    (getFieldD (tier2_fail_safe_orchestration envC2).1 "success" Json.null).truthy = true ∧
    ((lambda_handler envC2 (.obj [])).1.genMethod =
        some (.str "fail_safe_orchestration_with_synthesis") ∧
      (lambda_handler envC2 (.obj [])).1.hasWarning = false) :=
  ⟨rfl, rfl, (C2_amended envC2 (.obj []) rfl rfl).1 rfl⟩

/-! Claim C3. -/

theorem extractViaSpan_inv (cs : List Char) (j : Json)
    (h : extractViaSpan cs = some j) :
    ∃ span, greedySpan cs = some span ∧ jsonLoads (String.mk span) = some j := by
  unfold extractViaSpan at h
  cases hs : greedySpan cs <;> rw [hs] at h <;> dsimp only at h
  · exact absurd h (by simp)
  · rename_i span
    cases hl : jsonLoads (String.mk span) <;> rw [hl] at h <;> dsimp only at h
    · exact absurd h (by simp)
    · rename_i d
      by_cases hk : hasAllKeys d = true
      · rw [if_pos hk] at h
        cases h
        exact ⟨span, rfl, hl⟩
      · rw [if_neg hk] at h
        exact absurd h (by simp)

/-- A minimal campaign object carrying all seven required keys. -/
def emptyShapeCamp : Json := .obj [
  ("product", .obj []), ("content_ideas", .arr []), ("campaigns", .arr []),
  ("generated_assets", .obj []), ("related_youtube_videos", .arr []),
  ("platform_recommendations", .obj []), ("market_insights", .obj [])]

/-- The campaign object followed by commentary that holds one more braced
fragment. -/
def c3Text : String :=
  render emptyShapeCamp ++ " see also " ++
    String.singleton lbraceC ++ "x" ++ String.singleton rbraceC

/-- C3: counterexample.  On a text whose first balanced-brace span is a
complete campaign followed by further braced commentary, the greedy regex
span runs to the last closing brace of the whole text, its parse fails, and
`extract_campaign_json` returns nothing — while the spec's balanced-scan
algorithm recovers the campaign.  The extractor therefore does not select
the first balanced-brace span. -/
theorem C3_counterexample :
    greedySpan c3Text.data = some c3Text.data ∧
    balancedSpan c3Text.data = some (render emptyShapeCamp).data ∧
    extract_campaign_json c3Text = none ∧
    extractBalancedSpec c3Text = some emptyShapeCamp :=
  ⟨rfl, rfl, rfl, rfl⟩

/-- C3: amended.  For every input whose direct full-text parse fails (or
parses without the required keys), the extractor attempts exactly the
greedy regex span — from the first opening brace of the text to its last
closing brace — under the key-completeness test: every successful
extraction comes either from the direct parse or from that greedy span. -/
theorem C3_amended (text : String) (j : Json)
    (h : extract_campaign_json text = some j) :
    hasAllKeys j = true ∧
    (jsonLoads text = some j ∨
     ∃ span, greedySpan text.data = some span ∧ jsonLoads (String.mk span) = some j) := by
  refine ⟨extract_only_complete text j h, ?_⟩
  unfold extract_campaign_json at h
  cases hl : jsonLoads text <;> rw [hl] at h <;> dsimp only at h
  · exact Or.inr (extractViaSpan_inv _ _ h)
  · rename_i d
    by_cases hk : hasAllKeys d = true
    · rw [if_pos hk] at h
      cases h
      exact Or.inl rfl
    · rw [if_neg hk] at h
      exact Or.inr (extractViaSpan_inv _ _ h)

/-- The campaign object wrapped in leading commentary. -/
def c3Wrapped : String := "Here you go: " ++ render emptyShapeCamp

/-- C3: witness for the amended theorem at a concrete wrapped input. -/
theorem C3_witness :
    extract_campaign_json c3Wrapped = some emptyShapeCamp ∧
    (hasAllKeys emptyShapeCamp = true ∧
     (jsonLoads c3Wrapped = some emptyShapeCamp ∨
      ∃ span, greedySpan c3Wrapped.data = some span ∧
        jsonLoads (String.mk span) = some emptyShapeCamp)) :=
  ⟨rfl, C3_amended c3Wrapped emptyShapeCamp rfl⟩

/-! Claim C4. -/

theorem lookupKey_setKey_self (kvs : List (String × Json)) (k : String) (v : Json) :
    lookupKey (setKey kvs k v) k = some v := by
  induction kvs with
  | nil => simp [setKey, lookupKey]
  | cons e rest ih =>
    obtain ⟨k1, v1⟩ := e
    by_cases h : k1 = k
    · simp [setKey, h, lookupKey]
    · simp [setKey, h, lookupKey, ih]

theorem lookupKey_setKey_other (kvs : List (String × Json)) (k k' : String) (v : Json)
    (h : ¬ k = k') : lookupKey (setKey kvs k v) k' = lookupKey kvs k' := by
  induction kvs with
  | nil => simp [setKey, lookupKey, h]
  | cons e rest ih =>
    obtain ⟨k1, v1⟩ := e
    by_cases h1 : k1 = k
    · subst h1
      simp [setKey, lookupKey, h]
    · simp [setKey, h1, lookupKey, ih]

/-- Candidate for the C4 counterexample: present, missing exactly
`market_insights`, with an empty (hence falsy) `content_ideas` list. -/
def candC4 : Json := .obj [
  ("product", .obj [("description", .str "d")]),
  ("content_ideas", .arr []),
  ("campaigns", .arr [.num 1]),
  ("generated_assets", .obj [("image_prompts", .arr [.str "p"])]),
  ("related_youtube_videos", .arr [.num 2]),
  ("platform_recommendations", .obj [("primary_platforms", .arr [.str "IG"])])]

/-- C4: counterexample.  Reconciling a candidate that is missing exactly
`market_insights` and carries an empty `content_ideas` list yields a result
whose `content_ideas` is NOT the candidate's: the merge keeps only truthy
candidate values, so the empty list is replaced by the Builder's non-empty
one.  The result is therefore not identical to the candidate on every
other top-level key. -/
theorem C4_counterexample :
    getFieldD candC4 "content_ideas" .null = .arr [] ∧
    (getFieldD (reconcileResult (some candC4) (.obj []) (.obj [])).1
      "success" .null) = .bool true ∧
    ((getFieldD (getFieldD (reconcileResult (some candC4) (.obj []) (.obj [])).1
      "campaign" .null) "content_ideas" .null).truthy = true ∧
     (getFieldD candC4 "content_ideas" .null).truthy = false) :=
  ⟨rfl, rfl, rfl, rfl⟩

/-- C4: amended.  Given a candidate object missing exactly
`market_insights` whose six present values are all non-empty (truthy), the
reconcile step returns a success whose campaign keeps each of the six
candidate values verbatim and takes `market_insights` from the
Deterministic Campaign Builder; a falsy candidate value would instead be
replaced by the Builder's section. -/
theorem C4_amended (kvs rec objs : List (String × Json))
    (vp vci vca vga vry vpr : Json)
    (hp : lookupKey kvs "product" = some vp) (hpt : vp.truthy = true)
    (hci : lookupKey kvs "content_ideas" = some vci) (hcit : vci.truthy = true)
    (hca : lookupKey kvs "campaigns" = some vca) (hcat : vca.truthy = true)
    (hga : lookupKey kvs "generated_assets" = some vga) (hgat : vga.truthy = true)
    (hry : lookupKey kvs "related_youtube_videos" = some vry) (hryt : vry.truthy = true)
    (hpr : lookupKey kvs "platform_recommendations" = some vpr) (hprt : vpr.truthy = true)
    (hmi : lookupKey kvs "market_insights" = none)
    (hsafe : recordBuilderSafe (.obj rec) = true) :
    ∃ m fkvs,
      create_fallback_campaign (.obj rec) (.obj objs) = .ok (.obj fkvs) ∧
      reconcileResult (some (.obj kvs)) (.obj rec) (.obj objs) =
        (.obj [("success", .bool true), ("campaign", m)], [.builder]) ∧
      getFieldD m "product" .null = vp ∧
      getFieldD m "content_ideas" .null = vci ∧
      getFieldD m "campaigns" .null = vca ∧
      getFieldD m "generated_assets" .null = vga ∧
      getFieldD m "related_youtube_videos" .null = vry ∧
      getFieldD m "platform_recommendations" .null = vpr ∧
      getFieldD m "market_insights" .null = (lookupKey fkvs "market_insights").getD .null := by
  obtain ⟨fb, hfb⟩ := fallback_total rec objs hsafe
  obtain ⟨fkvs, hfk⟩ := fallback_ok_obj _ _ _ hfb
  subst hfk
  have hkvs : kvs ≠ [] := by
    intro hh
    rw [hh] at hp
    simp [lookupKey] at hp
  have htru : (Json.obj kvs).truthy = true := by
    cases kvs with
    | nil => exact absurd rfl hkvs
    | cons e rest => rfl
  have hnall : hasAllKeys (Json.obj kvs) = false := by
    simp [hasAllKeys, requiredKeys, pyContains, hmi]
  have hmerge : mergeKeys (Json.obj kvs) (Json.obj fkvs) requiredKeys =
      .ok (.obj (setKey (setKey (setKey (setKey (setKey (setKey fkvs
        "product" vp) "content_ideas" vci) "campaigns" vca) "generated_assets" vga)
        "related_youtube_videos" vry) "platform_recommendations" vpr)) := by
    simp only [mergeKeys, requiredKeys, pyContains, pyIndexKey,
      hp, hci, hca, hga, hry, hpr, hmi, hpt, hcit, hcat, hgat, hryt, hprt,
      Option.isSome_some, Option.isSome_none, if_true, if_false, ite_true, ite_false]
    simp
  refine ⟨Json.obj (setKey (setKey (setKey (setKey (setKey (setKey fkvs
      "product" vp) "content_ideas" vci) "campaigns" vca) "generated_assets" vga)
      "related_youtube_videos" vry) "platform_recommendations" vpr),
    fkvs, hfb, ?_, ?_, ?_, ?_, ?_, ?_, ?_, ?_⟩
  · simp only [reconcileResult]
    rw [htru, hnall]
    simp only [if_true, Bool.false_eq_true, if_false]
    rw [hfb]
    simp only []
    rw [hmerge]
  · simp [getFieldD, lookupKey_setKey_self, lookupKey_setKey_other]
  · simp [getFieldD, lookupKey_setKey_self, lookupKey_setKey_other]
  · simp [getFieldD, lookupKey_setKey_self, lookupKey_setKey_other]
  · simp [getFieldD, lookupKey_setKey_self, lookupKey_setKey_other]
  · simp [getFieldD, lookupKey_setKey_self, lookupKey_setKey_other]
  · simp [getFieldD, lookupKey_setKey_self, lookupKey_setKey_other]
  · simp [getFieldD, lookupKey_setKey_self, lookupKey_setKey_other]

/-- Concrete candidate for the C4 witness: six truthy values, no
`market_insights`. -/
def candC4w : List (String × Json) :=
  [("product", .num 1), ("content_ideas", .num 2), ("campaigns", .num 3),
   ("generated_assets", .num 4), ("related_youtube_videos", .num 5),
   ("platform_recommendations", .num 6)]

/-- C4: witness for the amended theorem at a concrete candidate. -/
theorem C4_witness :
    ∃ m fkvs,
      create_fallback_campaign (.obj []) (.obj []) = .ok (.obj fkvs) ∧
      reconcileResult (some (.obj candC4w)) (.obj []) (.obj []) =
        (.obj [("success", .bool true), ("campaign", m)], [.builder]) ∧
      getFieldD m "product" .null = .num 1 ∧
      getFieldD m "content_ideas" .null = .num 2 ∧
      getFieldD m "campaigns" .null = .num 3 ∧
      getFieldD m "generated_assets" .null = .num 4 ∧
      getFieldD m "related_youtube_videos" .null = .num 5 ∧
      getFieldD m "platform_recommendations" .null = .num 6 ∧
      getFieldD m "market_insights" .null = (lookupKey fkvs "market_insights").getD .null :=
  C4_amended candC4w [] [] (.num 1) (.num 2) (.num 3) (.num 4) (.num 5) (.num 6)
    rfl rfl rfl rfl rfl rfl rfl rfl rfl rfl rfl rfl rfl rfl

/-! Claim C5. -/

/-- A well-typed minimal campaign with all seven keys. -/
def wellCampC5 : Json := .obj [
  ("product", .obj [("description", .str "A reusable bottle")]),
  ("content_ideas", .arr [.obj [("platform", .str "Instagram")]]),
  ("campaigns", .arr [.obj [("name", .str "Launch")]]),
  ("generated_assets", .obj [("image_prompts", .arr [.str "bottle shot"])]),
  ("related_youtube_videos", .arr [.obj [("title", .str "Review")]]),
  ("platform_recommendations", .obj [("primary_platforms", .arr [.str "Instagram"])]),
  ("market_insights", .obj [("trending_content_types", .arr [.str "Unboxing"])])]

/-- The complete campaign embedded in commentary that carries one extra
closing brace. -/
def strayC5 : String :=
  "Note: " ++ render wellCampC5 ++ " hope it helps " ++ String.singleton rbraceC

/-- The complete campaign wrapped in plain commentary. -/
def wrappedC5 : String :=
  "Sure! Here is the campaign: " ++ render wellCampC5 ++ " Enjoy."

/-- A syntactically valid campaign object missing `market_insights`. -/
def missingC5 : Json := .obj [
  ("product", .obj [("description", .str "A mug")]),
  ("content_ideas", .arr []), ("campaigns", .arr []),
  ("generated_assets", .obj []), ("related_youtube_videos", .arr []),
  ("platform_recommendations", .obj [])]

/-- C5: counterexample.  A text that does contain an embedded JSON object
with all seven required keys but whose surrounding commentary carries one
extra closing brace makes both extraction stages fail, so
`extract_campaign_json` returns nothing — the claimed recovery does not
hold for every text containing such an object. -/
theorem C5_counterexample :
    jsonLoads (render wellCampC5) = some wellCampC5 ∧
    hasAllKeys wellCampC5 = true ∧
    extract_campaign_json strayC5 = none :=
  ⟨rfl, rfl, rfl⟩

/-- C5: amended.  The extractor is schema-gated — whatever it returns
passed the key-completeness test, so a candidate missing any required key
is never returned (even from syntactically valid JSON) and no error is
raised — and it does recover the embedded object when the text's braces
delimit it exactly, as in the concrete commentary-wrapped input. -/
theorem C5_amended :
    (∀ text j, extract_campaign_json text = some j → hasAllKeys j = true) ∧
    extract_campaign_json wrappedC5 = some wellCampC5 ∧
    jsonLoads (render missingC5) = some missingC5 ∧
    extract_campaign_json (render missingC5) = none :=
  ⟨extract_only_complete, rfl, rfl, rfl⟩

/-- C5: witness for the amended theorem's universally quantified part at a
concrete extraction. -/
theorem C5_witness : hasAllKeys wellCampC5 = true :=
  C5_amended.1 wrappedC5 wellCampC5 rfl

/-! Claim C6. -/

/-- C6: confirmed.  In every run in which Tier 1 failed and the image step
fails, the event trace is exactly `[image]` — the Enrichment and Cultural
sub-capabilities are never invoked — and the handler surfaces a failure
outcome. -/
theorem C6_fail_fast (env : Env) (co : Json)
    (h1 : tier1Succeeds env = false)
    (h2 : imageStepFails env = true) :
    (lambda_handler env co).2 = [Ev.image] ∧
    (lambda_handler env co).1.statusCode = 500 ∧
    (lambda_handler env co).1.successFlag = some (.bool false) := by
  obtain ⟨e, he⟩ := tier2_image_fail env h2
  unfold tier1Succeeds at h1
  unfold lambda_handler
  rw [if_neg (by simp [h1])]
  rw [he]
  exact ⟨rfl, rfl, rfl⟩

/-- Environment for the C6 witness: agent raises, image Lambda reports
failure. -/
def envC6 : Env :=
  ⟨.error "agent boom",
   .obj [("success", .bool false), ("error", .str "image lambda failed")],
   .obj [("success", .bool true)], .obj [("success", .bool true)], [], .error "m"⟩

/-- C6: witness at a concrete image-failure run. -/
theorem C6_witness :
    tier1Succeeds envC6 = false ∧
    imageStepFails envC6 = true ∧
    ((lambda_handler envC6 (.obj [])).2 = [Ev.image] ∧
     (lambda_handler envC6 (.obj [])).1.statusCode = 500 ∧
     (lambda_handler envC6 (.obj [])).1.successFlag = some (.bool false)) :=
  ⟨rfl, rfl, C6_fail_fast envC6 (.obj []) rfl rfl⟩

/-! Claim C7. -/

/-- A campaign with all seven keys whose values are all strings (wrong
container types throughout). -/
def typedWrongCampaignC7 : Json := .obj [
  ("product", .str "p"), ("content_ideas", .str "ideas"), ("campaigns", .str "camps"),
  ("generated_assets", .str "assets"), ("related_youtube_videos", .str "videos"),
  ("platform_recommendations", .str "recs"), ("market_insights", .str "insights")]

/-- Aggregated record for the C7 runs. -/
def recC7 : Json := .obj [("product_name", .str "Mug")]

/-- Environment: Tier 1 raises, image succeeds, Enrichment and Cultural
both fail, the record resolves, and the synthesis model returns the
mis-typed campaign. -/
def envC7 : Env :=
  ⟨.error "agent down",
   .obj [("success", .bool true), ("product_id", .str "p7")],
   .obj [("success", .bool false), ("error", .str "enrichment down")],
   .obj [("success", .bool false), ("error", .str "cultural down")],
   [((.str "p7", .str "anonymous"), recC7)],
   .ok (render typedWrongCampaignC7)⟩

/-- C7: counterexample.  In a run in which Image succeeds and both
Enrichment and Cultural fail, the handler returns DONE — but the campaign
can violate the validity predicate: nothing checks container types, so the
mis-typed synthesis output is returned verbatim. -/
theorem C7_counterexample :
    (getFieldD envC7.enrichResult "success" .null).truthy = false ∧
    (getFieldD envC7.culturalResult "success" .null).truthy = false ∧
    (lambda_handler envC7 (.obj [])).1.statusCode = 200 ∧
    (lambda_handler envC7 (.obj [])).1.successFlag = some (.bool true) ∧
    (lambda_handler envC7 (.obj [])).1.campaign = typedWrongCampaignC7 ∧
    specValidCampaign typedWrongCampaignC7 = false :=
  ⟨rfl, rfl, rfl, rfl, rfl, rfl⟩

/-- C7: amended.  When Tier 1 fails, Image succeeds, Enrichment and
Cultural both fail, the record resolves, and the record and objectives are
well-formed for the fallback builder, the handler returns a DONE (200)
success whose campaign passes the code's key-completeness test — container
types are not guaranteed. -/
theorem C7_amended (env : Env) (co : Json)
    (h1 : tier1Succeeds env = false)
    (h2 : imageStepFails env = false)
    (h3 : (getFieldD env.enrichResult "success" .null).truthy = false)
    (h4 : (getFieldD env.culturalResult "success" .null).truthy = false)
    (h5 : (getFieldD (tier2_fail_safe_orchestration env).1 "success" Json.null).truthy = true)
    (h6 : recordBuilderSafe
      (getFieldD (tier2_fail_safe_orchestration env).1 "aggregated_record" (.obj [])) = true)
    (h7 : ∃ okvs, co = Json.obj okvs) :
    (lambda_handler env co).1.statusCode = 200 ∧
    (lambda_handler env co).1.successFlag = some (.bool true) ∧
    hasAllKeys ((lambda_handler env co).1.campaign) = true := by
  unfold tier1Succeeds at h1
  unfold lambda_handler
  rw [if_neg (by simp [h1])]
  cases ht2 : tier2_fail_safe_orchestration env with
  | mk agg evs =>
    rw [ht2] at h5 h6
    dsimp only at h5 h6 ⊢
    rw [h5]
    cases hs : synthesize_with_bedrock env (getFieldD agg "aggregated_record" (.obj [])) co with
    | mk synth sevs =>
      dsimp only
      cases hy : (getFieldD synth "success" Json.null).truthy with
      | true =>
        exact ⟨rfl, rfl, synth_success_complete env _ co synth sevs hs hy⟩
      | false =>
        obtain ⟨okvs, rfl⟩ := h7
        obtain ⟨rkvs, hrk⟩ := recordBuilderSafe_obj _ h6
        rw [hrk] at h6
        rw [hrk]
        obtain ⟨c, hc⟩ := fallback_total rkvs okvs h6
        rw [hc]
        exact ⟨rfl, rfl, fallback_ok_complete _ _ _ hc⟩

/-- Environment for the C7 witness: like `envC7` but the synthesis call
raises, so the run degrades to the deterministic builder and still returns
DONE. -/
def envC7w : Env :=
  ⟨.error "agent down",
   .obj [("success", .bool true), ("product_id", .str "p7")],
   .obj [("success", .bool false), ("error", .str "enrichment down")],
   .obj [("success", .bool false), ("error", .str "cultural down")],
   [((.str "p7", .str "anonymous"), recC7)],
   .error "model down"⟩

/-- C7: witness at a concrete degraded run. -/
theorem C7_witness :
    tier1Succeeds envC7w = false ∧
    imageStepFails envC7w = false ∧
    (getFieldD envC7w.enrichResult "success" .null).truthy = false ∧
    (getFieldD envC7w.culturalResult "success" .null).truthy = false ∧
    ((lambda_handler envC7w (.obj [])).1.statusCode = 200 ∧
     (lambda_handler envC7w (.obj [])).1.successFlag = some (.bool true) ∧
     hasAllKeys ((lambda_handler envC7w (.obj [])).1.campaign) = true) :=
  ⟨rfl, rfl, rfl, rfl,
   C7_amended envC7w (.obj []) rfl rfl rfl rfl rfl rfl ⟨[], rfl⟩⟩

/-! Claim C8. -/

/-- In a run in which Tier-2's image step succeeded, the enrichment and
cultural results are dicts, and the DynamoDB read yields nothing truthy,
Tier 2 returns the retrieval failure after exactly the three invocations
and the read. -/
theorem tier2_read_miss (env : Env)
    (h2 : imageStepFails env = false)
    (h3 : ∃ ekvs, env.enrichResult = Json.obj ekvs)
    (h4 : ∃ ckvs, env.culturalResult = Json.obj ckvs)
    (h5 : ((storeLookup env.store
        (getFieldD env.imageResult "product_id" Json.null)
        (getFieldD env.culturalResult "user_id"
          (getFieldD env.imageResult "user_id" (.str "anonymous")))).getD (.obj [])).truthy
        = false) :
    tier2_fail_safe_orchestration env =
      (errResult ("Could not retrieve product record " ++
        pyStr (getFieldD env.imageResult "product_id" Json.null) ++ " from DynamoDB"),
       [Ev.image, Ev.enrichment, Ev.cultural,
        Ev.read (getFieldD env.imageResult "product_id" Json.null)
          (getFieldD env.culturalResult "user_id"
            (getFieldD env.imageResult "user_id" (.str "anonymous")))]) := by
  obtain ⟨ekvs, he⟩ := h3
  obtain ⟨ckvs, hc⟩ := h4
  unfold imageStepFails at h2
  unfold tier2_fail_safe_orchestration
  dsimp only
  cases hg : pyGet env.imageResult "success" with
  | error e =>
    rw [hg] at h2
    simp at h2
  | ok s =>
    rw [hg] at h2
    dsimp only at h2 ⊢
    rw [h2]
    rw [hc] at h5
    rw [he, hc]
    dsimp only [pyGet, pyGetD]
    rw [h5]
    rfl

/-- C8: confirmed.  When Tier 1 fails, the image step succeeds, and the
subsequent DynamoDB read of the subject record yields nothing, the handler
surfaces an explicit failure (500, success false) and the Deterministic
Builder is never invoked. -/
theorem C8_missing_record (env : Env) (co : Json)
    (h1 : tier1Succeeds env = false)
    (h2 : imageStepFails env = false)
    (h3 : ∃ ekvs, env.enrichResult = Json.obj ekvs)
    (h4 : ∃ ckvs, env.culturalResult = Json.obj ckvs)
    (h5 : ((storeLookup env.store
        (getFieldD env.imageResult "product_id" Json.null)
        (getFieldD env.culturalResult "user_id"
          (getFieldD env.imageResult "user_id" (.str "anonymous")))).getD (.obj [])).truthy
        = false) :
    (lambda_handler env co).1.statusCode = 500 ∧
    (lambda_handler env co).1.successFlag = some (.bool false) ∧
    (lambda_handler env co).2 =
      [Ev.image, Ev.enrichment, Ev.cultural,
       Ev.read (getFieldD env.imageResult "product_id" Json.null)
         (getFieldD env.culturalResult "user_id"
           (getFieldD env.imageResult "user_id" (.str "anonymous")))] ∧
    Ev.builder ∉ (lambda_handler env co).2 := by
  have ht2 := tier2_read_miss env h2 h3 h4 h5
  unfold tier1Succeeds at h1
  unfold lambda_handler
  rw [if_neg (by simp [h1])]
  rw [ht2]
  refine ⟨rfl, rfl, rfl, ?_⟩
  intro hmem
  simp [errResult, getFieldD, lookupKey, Json.truthy] at hmem

/-- Environment for the C8 witness: image succeeds but the store is
empty. -/
def envC8 : Env :=
  ⟨.error "agent down",
   .obj [("success", .bool true), ("product_id", .str "p8")],
   .obj [("success", .bool true)], .obj [("success", .bool true)],
   [], .error "m"⟩

/-- C8: witness at a concrete read-miss run. -/
theorem C8_witness :
    tier1Succeeds envC8 = false ∧
    imageStepFails envC8 = false ∧
    ((lambda_handler envC8 (.obj [])).1.statusCode = 500 ∧
     (lambda_handler envC8 (.obj [])).1.successFlag = some (.bool false) ∧
     (lambda_handler envC8 (.obj [])).2 =
       [Ev.image, Ev.enrichment, Ev.cultural,
        Ev.read (getFieldD envC8.imageResult "product_id" Json.null)
          (getFieldD envC8.culturalResult "user_id"
            (getFieldD envC8.imageResult "user_id" (.str "anonymous")))] ∧
     Ev.builder ∉ (lambda_handler envC8 (.obj [])).2) :=
  ⟨rfl, rfl, C8_missing_record envC8 (.obj []) rfl rfl ⟨_, rfl⟩ ⟨_, rfl⟩ rfl⟩

/-! Claim C9. -/

/-- A non-null facts object whose `product_description` is `None`. -/
def badDescRecord : Json := .obj [("product_description", Json.null)]

/-- C9: counterexample.  `create_fallback_campaign` raises on a non-null
facts object storing `None` under `product_description`: Python's
`product_description[:200]` is a `TypeError` on `None`, so the builder does
not succeed unconditionally on every non-null facts object. -/
theorem C9_counterexample :
    create_fallback_campaign badDescRecord (.obj []) =
      .error "TypeError: not subscriptable" := rfl

/-- C9: amended.  For every facts dict whose `product_description`, when
present, is sliceable (a string or a list) — which includes every record
with empty or absent list fields — the builder succeeds without raising,
makes no external calls (it is a pure function of its two arguments), and
returns a campaign containing every required top-level key. -/
theorem C9_amended (rec objs : List (String × Json))
    (h : recordBuilderSafe (.obj rec) = true) :
    ∃ c, create_fallback_campaign (.obj rec) (.obj objs) = .ok c ∧
      hasAllKeys c = true := by
  obtain ⟨c, hc⟩ := fallback_total rec objs h
  exact ⟨c, hc, fallback_ok_complete _ _ _ hc⟩

/-- Facts record with every list field empty. -/
def emptyFactsRecord : List (String × Json) :=
  [("product_name", .str "Widget"), ("image_labels", .arr []), ("youtube_videos", .arr [])]

/-- C9: witness at a record with empty lists everywhere. -/
theorem C9_witness :
    recordBuilderSafe (.obj emptyFactsRecord) = true ∧
    ∃ c, create_fallback_campaign (.obj emptyFactsRecord) (.obj []) = .ok c ∧
      hasAllKeys c = true :=
  ⟨rfl, C9_amended emptyFactsRecord [] rfl⟩

/-! Claim C10. -/

theorem getFieldD_not_contains (kvs : List (String × Json)) (k : String) (d : Json)
    (h : pyContains (Json.obj kvs) k = false) : getFieldD (Json.obj kvs) k d = d := by
  simp only [pyContains] at h
  cases hl : lookupKey kvs k with
  | none => simp [getFieldD, hl]
  | some v =>
    rw [hl] at h
    simp at h

theorem pyGet_ok_obj (j : Json) (k : String) (s : Json) (h : pyGet j k = .ok s) :
    ∃ kvs, j = Json.obj kvs := by
  cases j with
  | obj kvs => exact ⟨kvs, rfl⟩
  | null => simp [pyGet, pyGetD] at h
  | bool b => simp [pyGet, pyGetD] at h
  | num n => simp [pyGet, pyGetD] at h
  | str st => simp [pyGet, pyGetD] at h
  | arr xs => simp [pyGet, pyGetD] at h

/-- When the image step succeeds and the enrichment and cultural results
are dicts, the Tier-2 trace is the three invocations followed by the read
with the collected key. -/
theorem tier2_trace_read (env : Env)
    (h2 : imageStepFails env = false)
    (h3 : ∃ ekvs, env.enrichResult = Json.obj ekvs)
    (h4 : ∃ ckvs, env.culturalResult = Json.obj ckvs) :
    (tier2_fail_safe_orchestration env).2 =
      [Ev.image, Ev.enrichment, Ev.cultural,
       Ev.read (getFieldD env.imageResult "product_id" Json.null)
         (getFieldD env.culturalResult "user_id"
           (getFieldD env.imageResult "user_id" (.str "anonymous")))] := by
  obtain ⟨ekvs, he⟩ := h3
  obtain ⟨ckvs, hc⟩ := h4
  unfold imageStepFails at h2
  unfold tier2_fail_safe_orchestration
  dsimp only
  cases hg : pyGet env.imageResult "success" with
  | error e =>
    rw [hg] at h2
    simp at h2
  | ok s =>
    rw [hg] at h2
    dsimp only at h2 ⊢
    rw [h2]
    rw [he, hc]
    dsimp only [pyGet, pyGetD]
    rw [if_neg (by simp)]
    split
    · rfl
    · rfl

/-- S3 key of the C10 run. -/
def keyC10 : String := "uploads/u1/photo.png"

/-- The image Lambda's response to the intent parser for that run — it
carries no `user_id`. -/
def imgRespC10 : Json := image_analysis_response "p10" "EcoBottle" [] "2026-01-01T00:00:00"

/-- The record the image Lambda wrote, keyed by the derived user id. -/
def prodRecC10 : Json :=
  create_product_record (.obj [("name", .str "EcoBottle"), ("description", .str "A bottle")])
    "degenerals-mi-dev-images" keyC10 [] 0 0 "p10" "2026-01-01T00:00:00" "req-1"

/-- Environment for the C10 run: the store holds the record under the
derived `(product_id, user_id)` pair. -/
def envC10 : Env :=
  ⟨.error "agent down", imgRespC10,
   .obj [("success", .bool false)], .obj [("success", .bool false)],
   [((.str "p10", .str (deriveUserId keyC10)), prodRecC10)],
   .error "m"⟩

/-- C10: counterexample.  The record's owner id is the derived second
segment `u1`, but the image Lambda's response carries no `user_id`, so
Tier 2 reads with the defaulted `anonymous` — not with the pair the image
step derived — and the read misses the record the image step wrote. -/
theorem C10_counterexample :
    deriveUserId keyC10 = "u1" ∧
    getFieldD prodRecC10 "user_id" .null = .str "u1" ∧
    pyContains imgRespC10 "user_id" = false ∧
    (tier2_fail_safe_orchestration envC10).2 =
      [Ev.image, Ev.enrichment, Ev.cultural, Ev.read (.str "p10") (.str "anonymous")] ∧
    getFieldD (tier2_fail_safe_orchestration envC10).1 "success" .null = .bool false :=
  ⟨rfl, rfl, rfl, rfl, rfl⟩

/-- C10: amended.  The subject record's `user_id` is indeed derived in
`create_product_record` as the second `'/'`-separated segment of the S3 key
(defaulting to `anonymous` when the split has fewer than two parts), and
the stored record carries it — but the image Lambda's response to the
intent parser contains no `user_id`, so whenever neither the image response
nor the cultural response carries one, Tier 2 reads the store with the
`product_id` from the image response paired with the defaulted
`anonymous`, not with the derived user id. -/
theorem C10_amended :
    (∀ key s1 s2 ss, splitOnChar key.data '/' = s1 :: s2 :: ss →
      deriveUserId key = String.mk s2) ∧
    (∀ key s1, splitOnChar key.data '/' = [s1] → deriveUserId key = "anonymous") ∧
    (∀ pi bucket key labels tl hc pid ts rid,
      getFieldD (create_product_record pi bucket key labels tl hc pid ts rid)
        "user_id" .null = .str (deriveUserId key)) ∧
    (∀ pid pname labels ts,
      pyContains (image_analysis_response pid pname labels ts) "user_id" = false) ∧
    (∀ env : Env, imageStepFails env = false →
      (∃ ekvs, env.enrichResult = Json.obj ekvs) →
      (∃ ckvs, env.culturalResult = Json.obj ckvs) →
      pyContains env.imageResult "user_id" = false →
      pyContains env.culturalResult "user_id" = false →
      (tier2_fail_safe_orchestration env).2 =
        [Ev.image, Ev.enrichment, Ev.cultural,
         Ev.read (getFieldD env.imageResult "product_id" Json.null) (.str "anonymous")]) := by
  refine ⟨?_, ?_, ?_, ?_, ?_⟩
  · intro key s1 s2 ss h
    unfold deriveUserId
    rw [h]
  · intro key s1 h
    unfold deriveUserId
    rw [h]
  · intro pi bucket key labels tl hc pid ts rid
    rfl
  · intro pid pname labels ts
    rfl
  · intro env h2 h3 h4 hiu hcu
    have ht := tier2_trace_read env h2 h3 h4
    have himg : ∃ s, pyGet env.imageResult "success" = .ok s := by
      unfold imageStepFails at h2
      cases hg : pyGet env.imageResult "success" with
      | error e =>
        rw [hg] at h2
        simp at h2
      | ok s => exact ⟨s, rfl⟩
    obtain ⟨s, hg⟩ := himg
    obtain ⟨ikvs, hik⟩ := pyGet_ok_obj _ _ _ hg
    obtain ⟨ckvs, hck⟩ := h4
    rw [hik] at hiu ht ⊢
    rw [hck] at hcu ht
    rw [getFieldD_not_contains ikvs "user_id" (.str "anonymous") hiu] at ht
    rw [getFieldD_not_contains ckvs "user_id" (.str "anonymous") hcu] at ht
    exact ht

/-- C10: witness for the amended theorem at the concrete key and run. -/
theorem C10_witness :
    deriveUserId "uploads/u9/img.png" = "u9" ∧
    (tier2_fail_safe_orchestration envC10).2 =
      [Ev.image, Ev.enrichment, Ev.cultural,
       Ev.read (getFieldD envC10.imageResult "product_id" Json.null) (.str "anonymous")] :=
  ⟨C10_amended.1 "uploads/u9/img.png" "uploads".data "u9".data ["img.png".data] rfl,
   C10_amended.2.2.2.2 envC10 rfl ⟨_, rfl⟩ ⟨_, rfl⟩ rfl rfl⟩

end StrategIQ
